import Mathlib

/-!
Shallow embedding of the Wasmer host-guest execution bridge
(`linera-execution/src/wasm/wasmer.rs`) and of the service storage layer
(`linera-sdk/src/service/storage.rs`), together with theorems settling the
specification claims about them.

Conventions of the embedding:
* Rust panics (`expect`, `unwrap`) and other fatal aborts are modelled as the
  `Except.error` branch of an `Except String` result carrying the panic message.
* The `Arc<Mutex<Option<&dyn WritableStorage>>>` slot shared between the
  `SystemApi` and its paired `StorageGuard` is modelled as an explicit
  `StorageSlot` value threaded through the operations; `locked` is the mutex
  state observed by `try_lock`, `contents` is the `Option` inside.
* External collaborators (the storage capability, the Wasmer engine, the
  generated guest bindings, serde/bcs codecs) are modelled as records of
  functions the definitions are parameterized by, mirroring the narrow
  contracts the source code uses.
-/

/-- Byte strings crossing the host-guest boundary (`Vec<u8>` / `&[u8]`). -/
abbrev Bytes : Type := List Nat

/-- Rust's `Result::is_ok`. -/
def Except.is_ok : Except ε α → Bool
  | Except.ok _ => true
  | Except.error _ => false

namespace LineraExecution

/-- The execution error type of the storage capability (`crate::ExecutionError`,
defined outside this module); only its `Display` rendering crosses the guest
boundary, so it is abstracted to the text it renders to. -/
structure ExecutionError where
  message : String
deriving DecidableEq, Repr

/-- Rust's `ToString::to_string` for `ExecutionError` (via `Display`). -/
def ExecutionError.to_string (e : ExecutionError) : String := e.message

/-- Modelled from the spec: the `ContextForwarder` of the Future Bridge
(`async_boundary.rs`, not part of the sources) is a mutable slot holding the
currently-active asynchronous wake context.  The wake context itself never
influences the values computed by the system API, so it is left abstract. -/
structure ContextForwarder where
  context : Option Unit
deriving DecidableEq, Repr

/-- Rust's `ContextForwarder::default()`. -/
def ContextForwarder.default : ContextForwarder := { context := none }

/-- Rust's `std::task::Poll`. -/
inductive Poll (α : Type) where
  | pending
  | ready (value : α)
deriving DecidableEq, Repr

/-- Modelled from the spec: an asynchronous host computation, abstracted as the
number of polls it stays pending before completing and the value it completes
with.  Used as the computation wrapped by a `HostFuture`. -/
structure AsyncComputation (α : Type) where
  delay : Nat
  result : α
deriving DecidableEq, Repr

/-- Modelled from the spec: a `HostFuture` (`async_boundary.rs`, not part of the
sources) is a lazily-driven asynchronous computation plus its progress; it is
not started until first polled. -/
structure HostFuture (α : Type) where
  computation : AsyncComputation α
  polls : Nat
deriving DecidableEq, Repr

/-- Modelled from the spec: `HostFuture::new` wraps a not-yet-started
computation; it takes no wake context and never fails. -/
def HostFuture.new (computation : AsyncComputation α) : HostFuture α :=
  { computation := computation, polls := 0 }

/-- Modelled from the spec: polling advances the computation once using the wake
context registered in the forwarder, yielding `pending` while the computation
has not finished and `ready` with its value once it has. -/
def HostFuture.poll (future : HostFuture α) (_context : ContextForwarder) :
    Poll α × HostFuture α :=
  if future.computation.delay ≤ future.polls then
    (Poll.ready future.computation.result, future)
  else
    (Poll.pending, { future with polls := future.polls + 1 })

/-- Whether the computation underlying a future has finished. -/
def HostFuture.finished (future : HostFuture α) : Prop :=
  future.computation.delay ≤ future.polls

instance (future : HostFuture α) : Decidable future.finished := by
  unfold HostFuture.finished
  infer_instance

/-- The external storage capability (`crate::WritableStorage`, defined outside
this module): an asynchronous read/lock contract plus a synchronous
save-and-unlock over one opaque state blob. -/
structure WritableStorage where
  try_read_my_state : AsyncComputation (Except ExecutionError Bytes)
  try_read_and_lock_my_state : AsyncComputation (Except ExecutionError Bytes)
  save_and_unlock_my_state : Bytes → Except ExecutionError Unit

/-- The shared slot `Arc<Mutex<Option<&'static dyn WritableStorage>>>`:
`locked` is what `try_lock` observes, `contents` the `Option` inside. -/
structure StorageSlot where
  locked : Bool
  contents : Option WritableStorage

/-- The `SystemApi` of `wasmer.rs`: the context forwarder plus the shared
storage slot. -/
structure SystemApi where
  context : ContextForwarder
  storage : StorageSlot

/-- Rust's `SystemApi::new`: erases the lifetime of the borrowed storage
capability and places it in a fresh, unlocked shared slot.  The paired
`StorageGuard` co-owns the same slot; in this explicit-state embedding the
guard is represented by the right to apply `StorageGuard.drop` to the slot. -/
def SystemApi.new (context : ContextForwarder) (storage : WritableStorage) :
    SystemApi :=
  { context := context
    storage := { locked := false, contents := some storage } }

/-- Rust's `SystemApi::storage` (written `storage'` because the field
projection takes the plain name): `try_lock` panics on contention with
"Unexpected concurrent storage access by application", then `as_ref().expect`
panics on an empty slot with "Application called storage after it should have
stopped"; otherwise the capability is returned. -/
def SystemApi.storage' (api : SystemApi) : Except String WritableStorage :=
  if api.storage.locked then
    Except.error "Unexpected concurrent storage access by application"
  else
    match api.storage.contents with
    | none => Except.error "Application called storage after it should have stopped"
    | some s => Except.ok s

/-- The generated `system::PollLoad` type: pending, or ready with either the
bytes or a string-rendered error. -/
inductive PollLoad where
  | pending
  | ready (result : Except String Bytes)
deriving Repr

/-- Rust's `SystemApi::load_new`:
`HostFuture::new(self.storage().try_read_my_state())`.  The panic inside
`self.storage()` surfaces as the `Except.error` branch. -/
def SystemApi.load_new (api : SystemApi) :
    Except String (HostFuture (Except ExecutionError Bytes)) :=
  (api.storage').map fun storage => HostFuture.new storage.try_read_my_state

/-- Rust's `SystemApi::load_poll`: polls the future with the forwarded context
and renders a ready error to its string form. -/
def SystemApi.load_poll (api : SystemApi)
    (future : HostFuture (Except ExecutionError Bytes)) :
    PollLoad × HostFuture (Except ExecutionError Bytes) :=
  match HostFuture.poll future api.context with
  | (Poll.pending, f) => (PollLoad.pending, f)
  | (Poll.ready (Except.ok bytes), f) => (PollLoad.ready (Except.ok bytes), f)
  | (Poll.ready (Except.error e), f) =>
      (PollLoad.ready (Except.error e.to_string), f)

/-- Rust's `SystemApi::load_and_lock_new`:
`HostFuture::new(self.storage().try_read_and_lock_my_state())`. -/
def SystemApi.load_and_lock_new (api : SystemApi) :
    Except String (HostFuture (Except ExecutionError Bytes)) :=
  (api.storage').map fun storage =>
    HostFuture.new storage.try_read_and_lock_my_state

/-- Rust's `SystemApi::load_and_lock_poll`: identical shape to `load_poll`. -/
def SystemApi.load_and_lock_poll (api : SystemApi)
    (future : HostFuture (Except ExecutionError Bytes)) :
    PollLoad × HostFuture (Except ExecutionError Bytes) :=
  match HostFuture.poll future api.context with
  | (Poll.pending, f) => (PollLoad.pending, f)
  | (Poll.ready (Except.ok bytes), f) => (PollLoad.ready (Except.ok bytes), f)
  | (Poll.ready (Except.error e), f) =>
      (PollLoad.ready (Except.error e.to_string), f)

/-- Rust's `SystemApi::store_and_unlock`:
`self.storage().save_and_unlock_my_state(state.to_owned()).is_ok()`.  The
buffer is passed through unchanged (`to_owned` copies the bytes) and the
structured error is collapsed to a boolean. -/
def SystemApi.store_and_unlock (api : SystemApi) (state : Bytes) :
    Except String Bool :=
  (api.storage').map fun storage =>
    (storage.save_and_unlock_my_state state).is_ok

/-- Rust's `impl Drop for StorageGuard`: `try_lock` panics with "Guard dropped
while storage is still in use" on contention, then `take()` clears the slot to
`None`. -/
def StorageGuard.drop (slot : StorageSlot) : Except String StorageSlot :=
  if slot.locked then
    Except.error "Guard dropped while storage is still in use"
  else
    Except.ok { slot with contents := none }

/-- One guest-originated system call, as a transition label.  Poll operations
carry the future handle the guest passes back in. -/
inductive GuestOp where
  | load_new
  | load_and_lock_new
  | load_poll (future : HostFuture (Except ExecutionError Bytes))
  | load_and_lock_poll (future : HostFuture (Except ExecutionError Bytes))
  | store_and_unlock (state : Bytes)

/-- The effect of one guest system call on the `SystemApi` instance.  Every
implementation in `wasmer.rs` only reads the shared slot through
`SystemApi::storage` (the mutex guard is a temporary released within the call)
and never writes the `Option` inside; the futures produced or advanced live
outside the instance.  Each case therefore runs the operation and returns the
instance with its slot unchanged. -/
def SystemApi.step (api : SystemApi) : GuestOp → SystemApi
  | GuestOp.load_new =>
      let _ := api.load_new
      api
  | GuestOp.load_and_lock_new =>
      let _ := api.load_and_lock_new
      api
  | GuestOp.load_poll future =>
      let _ := api.load_poll future
      api
  | GuestOp.load_and_lock_poll future =>
      let _ := api.load_and_lock_poll future
      api
  | GuestOp.store_and_unlock state =>
      let _ := api.store_and_unlock state
      api

/-- A whole sequence of guest system calls. -/
def SystemApi.stepAll (api : SystemApi) : List GuestOp → SystemApi
  | [] => api
  | op :: ops => (api.step op).stepAll ops

/-- The Wasmer execution store (`wasmer::Store`), opaque to this module. -/
structure Store where
  id : Nat
deriving DecidableEq, Repr

/-- Rust's `Store::default()`. -/
def Store.default : Store := { id := 0 }

/-- A compiled Wasmer module (`wasmer::Module`), opaque artifact. -/
structure Module where
  id : Nat
deriving DecidableEq, Repr

/-- An instantiated Wasmer module (`wasmer::Instance`), opaque. -/
structure Instance where
  id : Nat
deriving DecidableEq, Repr

/-- Wasmer's boundary error type (`wasmer::RuntimeError`), opaque. -/
structure RuntimeError where
  message : String
deriving DecidableEq, Repr

/-- Opaque generated guest types (contexts, future handles and poll results of
`application.wit`).  Their internal shape never matters to the bridge, which
forwards them untouched. -/
structure OperationContext where
  id : Nat
deriving DecidableEq, Repr

/-- Opaque generated guest type, see `OperationContext`. -/
structure EffectContext where
  id : Nat
deriving DecidableEq, Repr

/-- Opaque generated guest type, see `OperationContext`. -/
structure CalleeContext where
  id : Nat
deriving DecidableEq, Repr

/-- Opaque generated guest type, see `OperationContext`. -/
structure QueryContext where
  id : Nat
deriving DecidableEq, Repr

/-- Opaque generated guest type, see `OperationContext`. -/
structure SessionParam where
  id : Nat
deriving DecidableEq, Repr

/-- Opaque generated guest type, see `OperationContext`. -/
structure SessionId where
  id : Nat
deriving DecidableEq, Repr

/-- Opaque generated guest future handle, see `OperationContext`. -/
structure ExecuteOperation where
  id : Nat
deriving DecidableEq, Repr

/-- Opaque generated guest future handle, see `OperationContext`. -/
structure ExecuteEffect where
  id : Nat
deriving DecidableEq, Repr

/-- Opaque generated guest future handle, see `OperationContext`. -/
structure CallApplication where
  id : Nat
deriving DecidableEq, Repr

/-- Opaque generated guest future handle, see `OperationContext`. -/
structure CallSession where
  id : Nat
deriving DecidableEq, Repr

/-- Opaque generated guest future handle, see `OperationContext`. -/
structure QueryApplication where
  id : Nat
deriving DecidableEq, Repr

/-- Opaque generated guest poll result, see `OperationContext`. -/
structure PollExecutionResult where
  id : Nat
deriving DecidableEq, Repr

/-- Opaque generated guest poll result, see `OperationContext`. -/
structure PollCallApplication where
  id : Nat
deriving DecidableEq, Repr

/-- Opaque generated guest poll result, see `OperationContext`. -/
structure PollCallSession where
  id : Nat
deriving DecidableEq, Repr

/-- Opaque generated guest poll result, see `OperationContext`. -/
structure PollQuery where
  id : Nat
deriving DecidableEq, Repr

/-- The generated guest binding `application::Application` (from
`application.wit`, outside the sources): one function per exported entry
point.  Each takes the mutable execution store and returns the possibly
updated store alongside its result, or Wasmer's boundary error. -/
structure Application where
  execute_operation_new : Store → OperationContext → Bytes →
    Except RuntimeError (ExecuteOperation × Store)
  execute_operation_poll : Store → ExecuteOperation →
    Except RuntimeError (PollExecutionResult × Store)
  execute_effect_new : Store → EffectContext → Bytes →
    Except RuntimeError (ExecuteEffect × Store)
  execute_effect_poll : Store → ExecuteEffect →
    Except RuntimeError (PollExecutionResult × Store)
  call_application_new : Store → CalleeContext → Bytes → List SessionId →
    Except RuntimeError (CallApplication × Store)
  call_application_poll : Store → CallApplication →
    Except RuntimeError (PollCallApplication × Store)
  call_session_new : Store → CalleeContext → SessionParam → Bytes →
    List SessionId → Except RuntimeError (CallSession × Store)
  call_session_poll : Store → CallSession →
    Except RuntimeError (PollCallSession × Store)
  query_application_new : Store → QueryContext → Bytes →
    Except RuntimeError (QueryApplication × Store)
  query_application_poll : Store → QueryApplication →
    Except RuntimeError (PollQuery × Store)

namespace CommonApplication

/-- The `impl common::Application<Wasmer> for Application` proxy, method
`execute_operation_new`: pure delegation to the generated binding. -/
def execute_operation_new (app : Application) (store : Store)
    (context : OperationContext) (operation : Bytes) :
    Except RuntimeError (ExecuteOperation × Store) :=
  Application.execute_operation_new app store context operation

/-- Proxy method `execute_operation_poll`. -/
def execute_operation_poll (app : Application) (store : Store)
    (future : ExecuteOperation) :
    Except RuntimeError (PollExecutionResult × Store) :=
  Application.execute_operation_poll app store future

/-- Proxy method `execute_effect_new`. -/
def execute_effect_new (app : Application) (store : Store)
    (context : EffectContext) (effect : Bytes) :
    Except RuntimeError (ExecuteEffect × Store) :=
  Application.execute_effect_new app store context effect

/-- Proxy method `execute_effect_poll`. -/
def execute_effect_poll (app : Application) (store : Store)
    (future : ExecuteEffect) :
    Except RuntimeError (PollExecutionResult × Store) :=
  Application.execute_effect_poll app store future

/-- Proxy method `call_application_new`. -/
def call_application_new (app : Application) (store : Store)
    (context : CalleeContext) (argument : Bytes)
    (forwarded_sessions : List SessionId) :
    Except RuntimeError (CallApplication × Store) :=
  Application.call_application_new app store context argument forwarded_sessions

/-- Proxy method `call_application_poll`. -/
def call_application_poll (app : Application) (store : Store)
    (future : CallApplication) :
    Except RuntimeError (PollCallApplication × Store) :=
  Application.call_application_poll app store future

/-- Proxy method `call_session_new`. -/
def call_session_new (app : Application) (store : Store)
    (context : CalleeContext) (session : SessionParam) (argument : Bytes)
    (forwarded_sessions : List SessionId) :
    Except RuntimeError (CallSession × Store) :=
  Application.call_session_new app store context session argument
    forwarded_sessions

/-- Proxy method `call_session_poll`. -/
def call_session_poll (app : Application) (store : Store)
    (future : CallSession) :
    Except RuntimeError (PollCallSession × Store) :=
  Application.call_session_poll app store future

/-- Proxy method `query_application_new`. -/
def query_application_new (app : Application) (store : Store)
    (context : QueryContext) (argument : Bytes) :
    Except RuntimeError (QueryApplication × Store) :=
  Application.query_application_new app store context argument

/-- Proxy method `query_application_poll`. -/
def query_application_poll (app : Application) (store : Store)
    (future : QueryApplication) :
    Except RuntimeError (PollQuery × Store) :=
  Application.query_application_poll app store future

end CommonApplication

/-- The module-level error type `WasmExecutionError`: module loading failures
arrive via `anyhow::Error` (rendered here to text), instantiation and
system-API setup failures via the backend's boundary error. -/
inductive WasmExecutionError where
  | load_module (message : String)
  | runtime_error (error : RuntimeError)
deriving DecidableEq, Repr

/-- The behavior of the external Wasmer engine and generated glue used by
`prepare_runtime`: module compilation (`Module::new`), instantiation
(`Application::instantiate`) and the deferred system-API setup closure
returned by `system::add_to_imports`.  The definitions are parameterized by
this record, mirroring the calls the source makes. -/
structure WasmerEnv where
  module_new : Store → Bytes → Except String Module
  instantiate : Store → Module → Except RuntimeError (Application × Instance)
  system_api_setup : Instance → Store → Except RuntimeError Unit

/-- Rust's `WasmRuntimeContext<Wasmer>`: forwarder, guest proxy, store and the
storage guard (here: the shared slot the guard protects). -/
structure WasmRuntimeContext where
  context_forwarder : ContextForwarder
  application : Application
  store : Store
  storage_guard : StorageSlot

/-- Rust's `WasmApplication`: the compiled bytecode artifact. -/
structure WasmApplication where
  bytecode : Bytes

/-- Rust's `WasmApplication::prepare_runtime`, step by step: default store;
compile the module (`?` maps the failure into
`WasmExecutionError::load_module`); default context forwarder; build the
`SystemApi` and its paired guard; instantiate against the imports (`?` on the
boundary error); run the deferred system-API setup (`?` on the boundary
error); bundle the runtime context. -/
def WasmApplication.prepare_runtime (app : WasmApplication) (env : WasmerEnv)
    (storage : WritableStorage) :
    Except WasmExecutionError WasmRuntimeContext :=
  let store := Store.default
  match env.module_new store app.bytecode with
  | Except.error message => Except.error (WasmExecutionError.load_module message)
  | Except.ok module =>
    let context_forwarder := ContextForwarder.default
    let system_api := SystemApi.new context_forwarder storage
    match env.instantiate store module with
    | Except.error e => Except.error (WasmExecutionError.runtime_error e)
    | Except.ok (application, inst) =>
      match env.system_api_setup inst store with
      | Except.error e => Except.error (WasmExecutionError.runtime_error e)
      | Except.ok _ =>
        Except.ok
          { context_forwarder := context_forwarder
            application := application
            store := store
            storage_guard := system_api.storage }

end LineraExecution

namespace LineraSdk

/-- An external error value whose `Display` rendering is what the service
layer forwards (used for `serde_json::Error`, `bcs::Error` and the
application's query-handler error type alike). -/
structure DisplayError where
  message : String
deriving DecidableEq, Repr

/-- Rust's `ToString::to_string` via `Display`. -/
def DisplayError.to_string (e : DisplayError) : String := e.message

/-- The `linera_sdk::QueryContext` passed to a service query, opaque here. -/
structure QueryContext where
  id : Nat
deriving DecidableEq, Repr

/-- Result of a service call whose body may also abort: `panicked` models a
Rust panic (from `expect`), `error`/`ok` the returned `Result`. -/
inductive Outcome (α : Type) where
  | panicked (message : String)
  | error (message : String)
  | ok (value : α)
deriving DecidableEq, Repr

/-- The external collaborators of `SimpleStateStorage::handle_query`,
parameterized by the application state type `A`, its query type `Q` and its
response type `R`: the key-value read of the state bytes
(`AppStateStore.read_value_bytes(&[])`), the bcs decoder for `A`, the
application's `Default::default()`, the serde-json decoder for `Q`, the
application's query handler, and the serde-json encoder for `R`. -/
structure SimpleEnv (A Q R : Type) where
  read_value_bytes : Except DisplayError (Option Bytes)
  bcs_from_bytes : Bytes → Except DisplayError A
  app_default : A
  json_from_slice : Bytes → Except DisplayError Q
  handle_query : A → QueryContext → Q → Except DisplayError R
  json_to_vec : R → Except DisplayError Bytes

namespace SimpleStateStorage

/-- Rust's `SimpleStateStorage::<A>::handle_query`: read the stored state
bytes (`expect` panics on a read failure), deserialize them with bcs when
present (`expect` panics on a decode failure) or take the default state when
absent, then parse the JSON query argument, run the handler and serialize the
response, each of the last three mapping its error to a string `Err`. -/
def handle_query (env : SimpleEnv A Q R) (context : QueryContext)
    (argument : Bytes) : Outcome Bytes :=
  match env.read_value_bytes with
  | Except.error _ => Outcome.panicked "Failed to read application state bytes"
  | Except.ok maybe_bytes =>
    let loaded_state : Outcome A :=
      match maybe_bytes with
      | some bytes =>
        match env.bcs_from_bytes bytes with
        | Except.error _ =>
            Outcome.panicked "Failed to deserialize application state"
        | Except.ok s => Outcome.ok s
      | none => Outcome.ok env.app_default
    match loaded_state with
    | Outcome.panicked m => Outcome.panicked m
    | Outcome.error m => Outcome.error m
    | Outcome.ok state =>
      match env.json_from_slice argument with
      | Except.error e => Outcome.error e.to_string
      | Except.ok query =>
        match env.handle_query state context query with
        | Except.error e => Outcome.error e.to_string
        | Except.ok query_response =>
          match env.json_to_vec query_response with
          | Except.error e => Outcome.error e.to_string
          | Except.ok bytes => Outcome.ok bytes

/-- The query pipeline of `SimpleStateStorage::handle_query` from the point
where the application state is fixed (source lines: the `Arc::new(state)`
onwards), written out separately so theorems can say which state the full
handler runs against. -/
def query_with_state (env : SimpleEnv A Q R) (context : QueryContext)
    (argument : Bytes) (state : A) : Outcome Bytes :=
  match env.json_from_slice argument with
  | Except.error e => Outcome.error e.to_string
  | Except.ok query =>
    match env.handle_query state context query with
    | Except.error e => Outcome.error e.to_string
    | Except.ok query_response =>
      match env.json_to_vec query_response with
      | Except.error e => Outcome.error e.to_string
      | Except.ok bytes => Outcome.ok bytes

end SimpleStateStorage

/-- The external collaborators of `ViewStateStorage::handle_query`: the view
loaded by `system_api::load_view` plus the same codecs and handler as in
`SimpleEnv`. -/
structure ViewEnv (A Q R : Type) where
  load_view : A
  json_from_slice : Bytes → Except DisplayError Q
  handle_query : A → QueryContext → Q → Except DisplayError R
  json_to_vec : R → Except DisplayError Bytes

namespace ViewStateStorage

/-- Rust's `ViewStateStorage::<A>::handle_query`: load the view, parse the
JSON query argument, run the handler and serialize the response, each failure
mapped to a string `Err`. -/
def handle_query (env : ViewEnv A Q R) (context : QueryContext)
    (argument : Bytes) : Outcome Bytes :=
  let application := env.load_view
  match env.json_from_slice argument with
  | Except.error e => Outcome.error e.to_string
  | Except.ok query =>
    match env.handle_query application context query with
    | Except.error e => Outcome.error e.to_string
    | Except.ok query_response =>
      match env.json_to_vec query_response with
      | Except.error e => Outcome.error e.to_string
      | Except.ok bytes => Outcome.ok bytes

end ViewStateStorage

end LineraSdk

namespace LineraExecution

/-- A concrete storage capability used to evaluate the theorems on explicit
inputs: the read completes after one poll, the read-and-lock fails at once,
and saving succeeds except on the buffer `[9]`. -/
def sampleStorage : WritableStorage :=
  { try_read_my_state := { delay := 1, result := Except.ok [1, 2] }
    try_read_and_lock_my_state :=
      { delay := 0, result := Except.error { message := "lock failed" } }
    save_and_unlock_my_state := fun state =>
      if state = [9] then Except.error { message := "commit failed" }
      else Except.ok () }

/-- A live `SystemApi` instance over `sampleStorage`. -/
def sampleApi : SystemApi :=
  SystemApi.new ContextForwarder.default sampleStorage

/-- A `SystemApi` whose paired guard has already been dropped: the shared slot
is unlocked and empty. -/
def stoppedApi : SystemApi :=
  { context := ContextForwarder.default
    storage := { locked := false, contents := none } }

/-- A concrete generated guest binding used to evaluate the proxy theorems on
explicit inputs. -/
def sampleApplication : Application :=
  { execute_operation_new := fun store _ _ => Except.ok ({ id := 1 }, store)
    execute_operation_poll := fun store _ => Except.ok ({ id := 2 }, store)
    execute_effect_new := fun store _ _ => Except.ok ({ id := 3 }, store)
    execute_effect_poll := fun store _ => Except.ok ({ id := 4 }, store)
    call_application_new := fun store _ _ _ => Except.ok ({ id := 5 }, store)
    call_application_poll := fun store _ => Except.ok ({ id := 6 }, store)
    call_session_new := fun store _ _ _ _ => Except.ok ({ id := 7 }, store)
    call_session_poll := fun store _ => Except.ok ({ id := 8 }, store)
    query_application_new := fun store _ _ => Except.ok ({ id := 9 }, store)
    query_application_poll := fun store _ => Except.ok ({ id := 10 }, store) }

end LineraExecution

namespace LineraSdk

/-- A concrete environment for `SimpleStateStorage::handle_query` over
`A = Q = R = Nat`: no stored state bytes, default state `7`, JSON decoding
accepts only the argument `[1]`, the handler accepts only the query `1`. -/
def sampleSimpleEnv : SimpleEnv Nat Nat Nat :=
  { read_value_bytes := Except.ok none
    bcs_from_bytes := fun _ => Except.error { message := "bcs failure" }
    app_default := 7
    json_from_slice := fun argument =>
      if argument = [1] then Except.ok 1
      else Except.error { message := "invalid json" }
    handle_query := fun state _ query =>
      if query = 1 then Except.ok (state + query)
      else Except.error { message := "handler failure" }
    json_to_vec := fun r => Except.ok [r] }

/-- A concrete environment for `ViewStateStorage::handle_query` over
`A = Q = R = Nat`, with the same codecs as `sampleSimpleEnv`. -/
def sampleViewEnv : ViewEnv Nat Nat Nat :=
  { load_view := 5
    json_from_slice := fun argument =>
      if argument = [1] then Except.ok 1
      else Except.error { message := "invalid json" }
    handle_query := fun state _ query =>
      if query = 1 then Except.ok (state + query)
      else Except.error { message := "handler failure" }
    json_to_vec := fun r => Except.ok [r] }

end LineraSdk

namespace LineraExecution

/-- No guest system call changes the `SystemApi` instance (in particular its
shared slot): every implementation only reads the slot. -/
theorem SystemApi.step_id (api : SystemApi) (op : GuestOp) :
    api.step op = api := by
  cases op <;> rfl

/-- A whole sequence of guest system calls leaves the instance unchanged. -/
theorem SystemApi.stepAll_id (api : SystemApi) (ops : List GuestOp) :
    api.stepAll ops = api := by
  induction ops with
  | nil => rfl
  | cons op ops ih => simpa [SystemApi.stepAll, SystemApi.step_id] using ih

/-- C1: immediately after `SystemApi::new` the shared slot holds `Some` of the
storage handle (and is unlocked); it still does after any sequence of guest
system calls, i.e. for the whole lifetime of the paired guard; and dropping
the guard at any such point succeeds (runs without panicking, hence exactly
once on any exit path) and clears the slot to `None`. -/
theorem c1_storage_slot_lifecycle (context : ContextForwarder)
    (cap : WritableStorage) (ops : List GuestOp) :
    (SystemApi.new context cap).storage =
        { locked := false, contents := some cap } ∧
    ((SystemApi.new context cap).stepAll ops).storage =
        { locked := false, contents := some cap } ∧
    StorageGuard.drop ((SystemApi.new context cap).stepAll ops).storage =
        Except.ok { locked := false, contents := none } := by
  have h := SystemApi.stepAll_id (SystemApi.new context cap) ops
  refine ⟨rfl, ?_, ?_⟩
  · rw [h]
    rfl
  · rw [h]
    rfl

/-- C1 witness: on the sample capability, after `new` followed by a `load_new`
call the slot still holds the capability, and dropping the guard then clears
it to `None`. -/
theorem c1_witness :
    StorageGuard.drop
        ((SystemApi.new ContextForwarder.default sampleStorage).stepAll
          [GuestOp.load_new]).storage =
      Except.ok { locked := false, contents := none } :=
  (c1_storage_slot_lifecycle ContextForwarder.default sampleStorage
    [GuestOp.load_new]).2.2

/-- C2: `SystemApi::storage` fails (panics) exactly when the slot's lock is
held by a concurrent caller or the slot is empty because the guard was
dropped, with the two distinct panic messages of the source; it succeeds with
the capability otherwise; and after a successful guard drop every subsequent
access fails deterministically with the "called storage after it should have
stopped" panic. -/
theorem c2_storage_access_failure_modes (api : SystemApi) :
    (api.storage.locked = true →
      api.storage' =
        Except.error "Unexpected concurrent storage access by application") ∧
    (api.storage.locked = false → api.storage.contents = none →
      api.storage' =
        Except.error "Application called storage after it should have stopped") ∧
    (∀ s, api.storage.locked = false → api.storage.contents = some s →
      api.storage' = Except.ok s) ∧
    (∀ slot', StorageGuard.drop api.storage = Except.ok slot' →
      SystemApi.storage' { api with storage := slot' } =
        Except.error "Application called storage after it should have stopped") := by
  refine ⟨?_, ?_, ?_, ?_⟩
  · intro h
    simp [SystemApi.storage', h]
  · intro h1 h2
    simp [SystemApi.storage', h1, h2]
  · intro s h1 h2
    simp [SystemApi.storage', h1, h2]
  · intro slot' h
    unfold StorageGuard.drop at h
    by_cases hl : api.storage.locked = true
    · simp [hl] at h
    · simp [hl] at h
      subst h
      simp [SystemApi.storage', hl]

/-- C2 witness: on a concrete instance whose slot lock is held, the access
fails with the concurrent-access panic. -/
theorem c2_witness :
    SystemApi.storage'
        { context := ContextForwarder.default
          storage := { locked := true, contents := none } } =
      Except.error "Unexpected concurrent storage access by application" :=
  (c2_storage_access_failure_modes
    { context := ContextForwarder.default
      storage := { locked := true, contents := none } }).1 rfl

/-- C3: `store_and_unlock` is synchronous (its result is computed directly,
with no future handle involved) and, whenever the storage capability is
reachable, it passes the input buffer unchanged to `save_and_unlock_my_state`
and returns exactly the boolean success of that commit — `true` on `Ok`,
`false` on any structured error, which is never propagated to the guest. -/
theorem c3_store_and_unlock_boolean (api : SystemApi) (s : WritableStorage)
    (state : Bytes) (h : api.storage' = Except.ok s) :
    api.store_and_unlock state =
        Except.ok ((s.save_and_unlock_my_state state).is_ok) ∧
    (s.save_and_unlock_my_state state = Except.ok () →
      api.store_and_unlock state = Except.ok true) ∧
    (∀ e, s.save_and_unlock_my_state state = Except.error e →
      api.store_and_unlock state = Except.ok false) := by
  unfold SystemApi.store_and_unlock
  rw [h]
  refine ⟨rfl, ?_, ?_⟩
  · intro hsave
    simp [Except.map, hsave, Except.is_ok]
  · intro e hsave
    simp [Except.map, hsave, Except.is_ok]

/-- C3 witness: on the sample capability, committing the buffer `[3]` succeeds
and the guest sees `true`; committing `[9]` fails and the guest sees `false`
(no structured error). -/
theorem c3_witness :
    sampleApi.store_and_unlock [3] = Except.ok true ∧
    sampleApi.store_and_unlock [9] = Except.ok false :=
  ⟨(c3_store_and_unlock_boolean sampleApi sampleStorage [3] rfl).2.1 rfl,
   (c3_store_and_unlock_boolean sampleApi sampleStorage [9] rfl).2.2
     { message := "commit failed" } rfl⟩

/-- C4: for every future handle, `load_poll` and `load_and_lock_poll` have
exactly the three outcomes of the claim: `Pending` whenever the underlying
computation has not finished, `Ready(Ok(bytes))` when it finished with the
computed bytes, and `Ready(Err(text))` when it finished with a storage error,
the error being rendered to its string form before reaching the guest. -/
theorem c4_poll_three_outcomes (api : SystemApi)
    (future : HostFuture (Except ExecutionError Bytes)) :
    (¬ future.finished →
      (api.load_poll future).1 = PollLoad.pending ∧
      (api.load_and_lock_poll future).1 = PollLoad.pending) ∧
    (∀ bytes, future.finished →
      future.computation.result = Except.ok bytes →
      (api.load_poll future).1 = PollLoad.ready (Except.ok bytes) ∧
      (api.load_and_lock_poll future).1 = PollLoad.ready (Except.ok bytes)) ∧
    (∀ e, future.finished →
      future.computation.result = Except.error e →
      (api.load_poll future).1 = PollLoad.ready (Except.error e.to_string) ∧
      (api.load_and_lock_poll future).1 =
        PollLoad.ready (Except.error e.to_string)) := by
  refine ⟨?_, ?_, ?_⟩
  · intro hnf
    have hd : ¬ future.computation.delay ≤ future.polls := hnf
    simp [SystemApi.load_poll, SystemApi.load_and_lock_poll, HostFuture.poll, hd]
  · intro bytes hf hres
    have hd : future.computation.delay ≤ future.polls := hf
    simp [SystemApi.load_poll, SystemApi.load_and_lock_poll, HostFuture.poll,
      hd, hres]
  · intro e hf hres
    have hd : future.computation.delay ≤ future.polls := hf
    simp [SystemApi.load_poll, SystemApi.load_and_lock_poll, HostFuture.poll,
      hd, hres]

/-- C4 witness: the sample read future is pending on its first poll, and a
completed failing future yields the string-rendered error. -/
theorem c4_witness :
    ((sampleApi.load_poll (HostFuture.new sampleStorage.try_read_my_state)).1 =
        PollLoad.pending ∧
      (sampleApi.load_and_lock_poll
          (HostFuture.new sampleStorage.try_read_my_state)).1 =
        PollLoad.pending) ∧
    (sampleApi.load_poll
        (HostFuture.new sampleStorage.try_read_and_lock_my_state)).1 =
      PollLoad.ready (Except.error "lock failed") :=
  ⟨(c4_poll_three_outcomes sampleApi
      (HostFuture.new sampleStorage.try_read_my_state)).1 (by decide),
   ((c4_poll_three_outcomes sampleApi
      (HostFuture.new sampleStorage.try_read_and_lock_my_state)).2.2
      { message := "lock failed" } (by decide) rfl).1⟩

/-- C5 counterexample: in the `SystemApi` state left behind once the paired
guard has been dropped (an empty slot), `load_new` and `load_and_lock_new` do
fail — they panic inside `SystemApi::storage` — refuting "never fail, for
every state of the System API instance in which they are called". -/
theorem c5_counterexample :
    stoppedApi.load_new =
        Except.error "Application called storage after it should have stopped" ∧
    stoppedApi.load_and_lock_new =
        Except.error "Application called storage after it should have stopped" :=
  ⟨rfl, rfl⟩

/-- C5 (amended): whenever the shared slot is unlocked and still holds the
capability, `load_new` and `load_and_lock_new` take no wake context, wrap the
not-yet-started retrieval in a future handle (zero polls performed) and return
it immediately without failing; in the states where the slot is locked or
empty they instead fail fatally inside `SystemApi::storage`. -/
theorem c5_new_operations_wrap_unstarted (api : SystemApi)
    (s : WritableStorage) (h : api.storage' = Except.ok s) :
    api.load_new = Except.ok (HostFuture.new s.try_read_my_state) ∧
    api.load_and_lock_new =
        Except.ok (HostFuture.new s.try_read_and_lock_my_state) ∧
    (HostFuture.new s.try_read_my_state).polls = 0 ∧
    (HostFuture.new s.try_read_and_lock_my_state).polls = 0 := by
  unfold SystemApi.load_new SystemApi.load_and_lock_new
  rw [h]
  exact ⟨rfl, rfl, rfl, rfl⟩

/-- C5 witness: on the live sample instance the wrapped future is returned
directly and has performed no polls. -/
theorem c5_witness :
    sampleApi.load_new =
        Except.ok (HostFuture.new sampleStorage.try_read_my_state) ∧
    (HostFuture.new sampleStorage.try_read_my_state).polls = 0 :=
  ⟨(c5_new_operations_wrap_unstarted sampleApi sampleStorage rfl).1,
   (c5_new_operations_wrap_unstarted sampleApi sampleStorage rfl).2.2.1⟩

/-- C7: `load_new` starts its future over exactly the capability's read-only
retrieval `try_read_my_state` and `load_and_lock_new` over exactly the
write-intent retrieval `try_read_and_lock_my_state`; neither performs any
other storage action — the wrapped computation is precisely that retrieval and
the instance (with its shared slot) is left unchanged by the call. -/
theorem c7_new_operations_use_right_retrieval (api : SystemApi)
    (s : WritableStorage) (h : api.storage' = Except.ok s) :
    (∀ f, api.load_new = Except.ok f →
      f.computation = s.try_read_my_state) ∧
    (∀ f, api.load_and_lock_new = Except.ok f →
      f.computation = s.try_read_and_lock_my_state) ∧
    api.step GuestOp.load_new = api ∧
    api.step GuestOp.load_and_lock_new = api := by
  refine ⟨?_, ?_, SystemApi.step_id api GuestOp.load_new,
    SystemApi.step_id api GuestOp.load_and_lock_new⟩
  · intro f hf
    unfold SystemApi.load_new at hf
    rw [h] at hf
    cases hf
    rfl
  · intro f hf
    unfold SystemApi.load_and_lock_new at hf
    rw [h] at hf
    cases hf
    rfl

/-- C7 witness: on the live sample instance the computation wrapped by
`load_new` is the capability's `try_read_my_state`. -/
theorem c7_witness :
    (HostFuture.new sampleStorage.try_read_my_state).computation =
      sampleStorage.try_read_my_state :=
  (c7_new_operations_use_right_retrieval sampleApi sampleStorage rfl).1
    (HostFuture.new sampleStorage.try_read_my_state) rfl

/-- C6: if module compilation fails, `prepare_runtime` returns the fatal
`load_module` error and its result does not depend on the engine's
instantiation or setup behavior at all (so the module is never instantiated
and no guest call is reached); likewise an instantiation failure or a
system-API setup failure makes it return the corresponding fatal boundary
error. -/
theorem c6_prepare_runtime_failure_propagation (app : WasmApplication)
    (storage : WritableStorage) :
    (∀ compile message inst setup,
      compile Store.default app.bytecode = Except.error message →
      WasmApplication.prepare_runtime app
          { module_new := compile
            instantiate := inst
            system_api_setup := setup } storage =
        Except.error (WasmExecutionError.load_module message)) ∧
    (∀ env : WasmerEnv, ∀ module e,
      env.module_new Store.default app.bytecode = Except.ok module →
      env.instantiate Store.default module = Except.error e →
      app.prepare_runtime env storage =
        Except.error (WasmExecutionError.runtime_error e)) ∧
    (∀ env : WasmerEnv, ∀ module application inst e,
      env.module_new Store.default app.bytecode = Except.ok module →
      env.instantiate Store.default module = Except.ok (application, inst) →
      env.system_api_setup inst Store.default = Except.error e →
      app.prepare_runtime env storage =
        Except.error (WasmExecutionError.runtime_error e)) := by
  refine ⟨?_, ?_, ?_⟩
  · intro compile message inst setup h
    simp [WasmApplication.prepare_runtime, h]
  · intro env module e h1 h2
    simp [WasmApplication.prepare_runtime, h1, h2]
  · intro env module application inst e h1 h2 h3
    simp [WasmApplication.prepare_runtime, h1, h2, h3]

/-- C6 witness: with an engine whose compiler rejects the bytecode,
`prepare_runtime` reports the fatal `load_module` error, whatever the
instantiation and setup would have done. -/
theorem c6_witness :
    WasmApplication.prepare_runtime { bytecode := [0] }
        { module_new := fun _ _ => Except.error "bad bytecode"
          instantiate := fun _ _ => Except.error { message := "unreachable" }
          system_api_setup := fun _ _ => Except.ok () } sampleStorage =
      Except.error (WasmExecutionError.load_module "bad bytecode") :=
  (c6_prepare_runtime_failure_propagation { bytecode := [0] } sampleStorage).1
    (fun _ _ => Except.error "bad bytecode") "bad bytecode"
    (fun _ _ => Except.error { message := "unreachable" })
    (fun _ _ => Except.ok ()) rfl

/-- C8: every entry point of the guest call surface proxy
(`impl common::Application<Wasmer> for Application`) is equivalent to the
underlying generated binding: it forwards the store, context, argument and
session parameters unchanged and returns the callee's result unchanged, for
the new/poll pair of each of `execute_operation`, `execute_effect`,
`call_application`, `call_session` and `query_application`. -/
theorem c8_proxy_equals_binding (app : Application) (store : Store) :
    (∀ context operation,
      CommonApplication.execute_operation_new app store context operation =
        app.execute_operation_new store context operation) ∧
    (∀ future,
      CommonApplication.execute_operation_poll app store future =
        app.execute_operation_poll store future) ∧
    (∀ context effect,
      CommonApplication.execute_effect_new app store context effect =
        app.execute_effect_new store context effect) ∧
    (∀ future,
      CommonApplication.execute_effect_poll app store future =
        app.execute_effect_poll store future) ∧
    (∀ context argument forwarded_sessions,
      CommonApplication.call_application_new app store context argument
          forwarded_sessions =
        app.call_application_new store context argument forwarded_sessions) ∧
    (∀ future,
      CommonApplication.call_application_poll app store future =
        app.call_application_poll store future) ∧
    (∀ context session argument forwarded_sessions,
      CommonApplication.call_session_new app store context session argument
          forwarded_sessions =
        app.call_session_new store context session argument
          forwarded_sessions) ∧
    (∀ future,
      CommonApplication.call_session_poll app store future =
        app.call_session_poll store future) ∧
    (∀ context argument,
      CommonApplication.query_application_new app store context argument =
        app.query_application_new store context argument) ∧
    (∀ future,
      CommonApplication.query_application_poll app store future =
        app.query_application_poll store future) :=
  ⟨fun _ _ => rfl, fun _ => rfl, fun _ _ => rfl, fun _ => rfl,
   fun _ _ _ => rfl, fun _ => rfl, fun _ _ _ _ => rfl, fun _ => rfl,
   fun _ _ => rfl, fun _ => rfl⟩

/-- C8 witness: on a concrete binding, the proxy's `execute_operation_new`
returns exactly what the binding returns. -/
theorem c8_witness :
    CommonApplication.execute_operation_new sampleApplication Store.default
        { id := 0 } [] =
      sampleApplication.execute_operation_new Store.default { id := 0 } [] :=
  (c8_proxy_equals_binding sampleApplication Store.default).1 { id := 0 } []

end LineraExecution

namespace LineraSdk

/-- When no state bytes are stored, `SimpleStateStorage::handle_query` runs
the query pipeline against the default state. -/
theorem SimpleStateStorage.state_default {A Q R : Type} (env : SimpleEnv A Q R)
    (context : QueryContext) (argument : Bytes)
    (h : env.read_value_bytes = Except.ok none) :
    SimpleStateStorage.handle_query env context argument =
      SimpleStateStorage.query_with_state env context argument
        env.app_default := by
  simp [SimpleStateStorage.handle_query, SimpleStateStorage.query_with_state, h]

/-- When state bytes are stored and deserialize, `handle_query` runs the query
pipeline against the deserialized state. -/
theorem SimpleStateStorage.state_deserialized {A Q R : Type}
    (env : SimpleEnv A Q R) (context : QueryContext) (argument : Bytes)
    (bytes : Bytes) (state : A)
    (h1 : env.read_value_bytes = Except.ok (some bytes))
    (h2 : env.bcs_from_bytes bytes = Except.ok state) :
    SimpleStateStorage.handle_query env context argument =
      SimpleStateStorage.query_with_state env context argument state := by
  simp [SimpleStateStorage.handle_query, SimpleStateStorage.query_with_state,
    h1, h2]

/-- C9: in `SimpleStateStorage::handle_query`, when reading the stored state
bytes yields no value the query is handled against the application's default
state rather than failing; when bytes are present (and bcs deserialization
succeeds) the state used is their deserialization. -/
theorem c9_simple_query_state_selection {A Q R : Type} (env : SimpleEnv A Q R)
    (context : QueryContext) (argument : Bytes) :
    (env.read_value_bytes = Except.ok none →
      SimpleStateStorage.handle_query env context argument =
        SimpleStateStorage.query_with_state env context argument
          env.app_default) ∧
    (∀ bytes state,
      env.read_value_bytes = Except.ok (some bytes) →
      env.bcs_from_bytes bytes = Except.ok state →
      SimpleStateStorage.handle_query env context argument =
        SimpleStateStorage.query_with_state env context argument state) :=
  ⟨fun h => SimpleStateStorage.state_default env context argument h,
   fun bytes state h1 h2 =>
     SimpleStateStorage.state_deserialized env context argument bytes state
       h1 h2⟩

/-- C9 witness: on the concrete environment with no stored bytes, the handler
runs against the default state `7` and answers the valid query `[1]`. -/
theorem c9_witness :
    SimpleStateStorage.handle_query sampleSimpleEnv { id := 0 } [1] =
      SimpleStateStorage.query_with_state sampleSimpleEnv { id := 0 } [1]
        sampleSimpleEnv.app_default :=
  (c9_simple_query_state_selection sampleSimpleEnv { id := 0 } [1]).1 rfl

/-- C10: for every query argument whose JSON decoding fails, both
`SimpleStateStorage::handle_query` (whenever its state loading succeeds, so
that the argument is reached) and `ViewStateStorage::handle_query` return
`Err` with the decoder's error rendered to a string — an `error` outcome, not
a panic; likewise query-handler errors and response-serialization failures are
returned as `Err(text)` by both. -/
theorem c10_handle_query_errors_to_text {A Q R B S T : Type}
    (senv : SimpleEnv A Q R) (venv : ViewEnv B S T) (context : QueryContext)
    (argument : Bytes) (state : A)
    (hstate :
      senv.read_value_bytes = Except.ok none ∧ state = senv.app_default ∨
      ∃ bytes, senv.read_value_bytes = Except.ok (some bytes) ∧
        senv.bcs_from_bytes bytes = Except.ok state) :
    (∀ e, senv.json_from_slice argument = Except.error e →
      SimpleStateStorage.handle_query senv context argument =
        Outcome.error e.to_string) ∧
    (∀ e, venv.json_from_slice argument = Except.error e →
      ViewStateStorage.handle_query venv context argument =
        Outcome.error e.to_string) ∧
    (∀ q e, senv.json_from_slice argument = Except.ok q →
      senv.handle_query state context q = Except.error e →
      SimpleStateStorage.handle_query senv context argument =
        Outcome.error e.to_string) ∧
    (∀ q e, venv.json_from_slice argument = Except.ok q →
      venv.handle_query venv.load_view context q = Except.error e →
      ViewStateStorage.handle_query venv context argument =
        Outcome.error e.to_string) ∧
    (∀ q r e, senv.json_from_slice argument = Except.ok q →
      senv.handle_query state context q = Except.ok r →
      senv.json_to_vec r = Except.error e →
      SimpleStateStorage.handle_query senv context argument =
        Outcome.error e.to_string) ∧
    (∀ q r e, venv.json_from_slice argument = Except.ok q →
      venv.handle_query venv.load_view context q = Except.ok r →
      venv.json_to_vec r = Except.error e →
      ViewStateStorage.handle_query venv context argument =
        Outcome.error e.to_string) := by
  have hrun : SimpleStateStorage.handle_query senv context argument =
      SimpleStateStorage.query_with_state senv context argument state := by
    rcases hstate with ⟨h1, h2⟩ | ⟨bytes, h1, h2⟩
    · subst h2
      exact SimpleStateStorage.state_default senv context argument h1
    · exact SimpleStateStorage.state_deserialized senv context argument bytes
        state h1 h2
  refine ⟨?_, ?_, ?_, ?_, ?_, ?_⟩
  · intro e he
    rw [hrun]
    simp [SimpleStateStorage.query_with_state, he]
  · intro e he
    simp [ViewStateStorage.handle_query, he]
  · intro q e hq he
    rw [hrun]
    simp [SimpleStateStorage.query_with_state, hq, he]
  · intro q e hq he
    simp [ViewStateStorage.handle_query, hq, he]
  · intro q r e hq hr he
    rw [hrun]
    simp [SimpleStateStorage.query_with_state, hq, hr, he]
  · intro q r e hq hr he
    simp [ViewStateStorage.handle_query, hq, hr, he]

/-- C10 witness: on the concrete environments, the non-JSON argument `[2]`
makes both handlers return the rendered decoder error as `Err`, without
panicking. -/
theorem c10_witness :
    SimpleStateStorage.handle_query sampleSimpleEnv { id := 0 } [2] =
        Outcome.error "invalid json" ∧
    ViewStateStorage.handle_query sampleViewEnv { id := 0 } [2] =
        Outcome.error "invalid json" :=
  ⟨(c10_handle_query_errors_to_text sampleSimpleEnv sampleViewEnv { id := 0 }
      [2] sampleSimpleEnv.app_default (Or.inl ⟨rfl, rfl⟩)).1
      { message := "invalid json" } rfl,
   (c10_handle_query_errors_to_text sampleSimpleEnv sampleViewEnv { id := 0 }
      [2] sampleSimpleEnv.app_default (Or.inl ⟨rfl, rfl⟩)).2.1
      { message := "invalid json" } rfl⟩

end LineraSdk

